import Mathlib

/-!
Shallow embedding of the self-service portal setup script (src/index.js).

The script talks to a remote identity-management API.  We model the network
by explicit oracles: an operation's oracle maps the (replayed) request and the
attempt index to the remote outcome.  Every remote interaction of a run is
recorded in an event trace (`Event`): the issuing of a request, the arrival of
its response, and the fixed-delay waits performed by the retry policy.
Console logging and file writing are outside the model; the environment files
are modelled as the strings the script writes.  Unbounded 429-retry recursion
is embedded with explicit fuel: a result `none` means the fuel was exhausted
(the run does not terminate within `fuel` attempts), `some (res, tr)` means
the operation settled with JavaScript value `res` (`none` = `undefined`,
the swallowed-failure result) and emitted the trace `tr`.
-/

/-- Operator-supplied configuration (`config` in the script): tenant domain,
management-API token, and the normalized portal URL. -/
structure Config where
  domain : String
  token : String
  portal_url : String
  deriving DecidableEq

/-- A remote entity as the script reads it: an opaque JSON object of which
only these fields are ever accessed by name. -/
structure Entity where
  id : String
  name : String
  strategy : String
  enabled_clients : List String
  client_id : String
  client_secret : String
  deriving DecidableEq

/-- Error thrown by a remote call: the numeric status code when present
(`err.statusCode`) and the error text. -/
structure HttpError where
  statusCode : Option Nat
  body : String
  deriving DecidableEq

/-- Outcome of a single remote invocation. -/
inductive CallResult (α : Type) where
  | success (v : α)
  | failure (e : HttpError)
  deriving DecidableEq

/-- JSON-like payload values, mirroring the object literals of the script. -/
inductive Json where
  | str (s : String)
  | bool (b : Bool)
  | arr (elems : List Json)
  | obj (fields : List (String × Json))

/-- Field lookup on a JSON object (first binding wins), `none` elsewhere. -/
def Json.getField (j : Json) (k : String) : Option Json :=
  match j with
  | .obj fields => (fields.find? (fun p => p.1 == k)).map (fun p => p.2)
  | _ => none

/-- HTTP method of a request issued by the script. -/
inductive Method where
  | get
  | post
  | patch
  deriving DecidableEq

/-- A request against `https://{domain}/api/v2/{entity}[/{id}]` with an
optional JSON body.  The base URL and bearer header are common to every
request and therefore left implicit. -/
structure Request where
  method : Method
  entity : String
  id : Option String
  payload : Option Json

/-- Observable events of a run: a request being issued, a response (single
entity or entity list) arriving, and a retry-policy delay in milliseconds. -/
inductive Event where
  | call (r : Request)
  | respOne (r : Request) (res : CallResult Entity)
  | respMany (r : Request) (res : CallResult (List Entity))
  | wait (ms : Nat)

/-- The request an event issues, if it is a `call` event. -/
def Event.callReq : Event → Option Request
  | .call r => some r
  | _ => none

/-- The delay of an event in milliseconds, if it is a `wait` event. -/
def Event.waitMs : Event → Option Nat
  | .wait ms => some ms
  | _ => none

/-- Embedding of `handleError(err, failedOperation)` from the script: on status code 429 it
waits `DELAY_SECONDS = 5` seconds and returns the replayed operation's result;
on any other failure it logs and returns `undefined` (modelled `none`) with no
further events.  `failedOperation` is the (fuelled) result of replaying the
operation; the 5-second delay is recorded as a `wait 5000` event preceding the
replay's events. -/
def handleError (err : HttpError) (failedOperation : Option (Option Entity × List Event)) :
    Option (Option Entity × List Event) :=
  if err.statusCode = some 429 then
    failedOperation.map (fun p => (p.1, Event.wait 5000 :: p.2))
  else
    some (none, [])

/-- The shared `try rp(...) catch (err) handleError(err, replay)` shape of
`createEntity` / `getEntity` / `patchEntity`: issue the request, and on
failure defer to `handleError` with a replay of the very same request.  `k` is
the attempt index presented to the oracle; recursion consumes fuel. -/
def requestWithRetry (net : Request → Nat → CallResult Entity) (r : Request) :
    Nat → Nat → Option (Option Entity × List Event)
  | 0, _ => none
  | fuel + 1, k =>
    match net r k with
    | .success v => some (some v, [.call r, .respOne r (.success v)])
    | .failure err =>
      match handleError err (requestWithRetry net r fuel (k + 1)) with
      | none => none
      | some (res, tr) => some (res, .call r :: .respOne r (.failure err) :: tr)

/-- Request built by `createEntity`: `POST {base}/{entity}` with a JSON body. -/
def postReq (entity : String) (payload : Json) : Request :=
  { method := .post, entity := entity, id := none, payload := some payload }

/-- Request built by `getEntity`: `GET {base}/{entity}/{id}`. -/
def getReq (entity id : String) : Request :=
  { method := .get, entity := entity, id := some id, payload := none }

/-- Request built by `patchEntity`: `PATCH {base}/{entity}/{id}` with a body. -/
def patchReq (entity id : String) (payload : Json) : Request :=
  { method := .patch, entity := entity, id := some id, payload := some payload }

/-- Embedding of `createEntity(entity, payload)` from the script. -/
def createEntity (net : Request → Nat → CallResult Entity) (entity : String) (payload : Json)
    (fuel : Nat) : Option (Option Entity × List Event) :=
  requestWithRetry net (postReq entity payload) fuel 0

/-- Embedding of `getEntity(entity, id)` from the script. -/
def getEntity (net : Request → Nat → CallResult Entity) (entity id : String)
    (fuel : Nat) : Option (Option Entity × List Event) :=
  requestWithRetry net (getReq entity id) fuel 0

/-- Embedding of `patchEntity(entity, id, payload)` from the script. -/
def patchEntity (net : Request → Nat → CallResult Entity) (entity id : String) (payload : Json)
    (fuel : Nat) : Option (Option Entity × List Event) :=
  requestWithRetry net (patchReq entity id payload) fuel 0

/-- A run whose oracle answers 429 for attempts `k + i` with `i < N` and
succeeds at attempt `k + N` settles with the successful value, issues the
same request `N + 1` times, and performs `N` waits of 5000 ms. -/
theorem requestWithRetry_429_run (net : Request → Nat → CallResult Entity) (r : Request)
    (v : Entity) :
    ∀ N k fuel, N < fuel →
      (∀ i, i < N → ∃ e, net r (k + i) = .failure e ∧ e.statusCode = some 429) →
      net r (k + N) = .success v →
      ∃ tr, requestWithRetry net r fuel k = some (some v, tr) ∧
        tr.filterMap Event.callReq = List.replicate (N + 1) r ∧
        tr.filterMap Event.waitMs = List.replicate N 5000 := by
  intro N
  induction N with
  | zero =>
    intro k fuel hfuel h429 hok
    obtain ⟨fuel, rfl⟩ : ∃ f, fuel = f + 1 := ⟨fuel - 1, by omega⟩
    rw [Nat.add_zero] at hok
    refine ⟨[.call r, .respOne r (.success v)], ?_, ?_, ?_⟩
    · simp [requestWithRetry, hok]
    · simp [Event.callReq]
    · simp [Event.waitMs]
  | succ N ih =>
    intro k fuel hfuel h429 hok
    obtain ⟨fuel, rfl⟩ : ∃ f, fuel = f + 1 := ⟨fuel - 1, by omega⟩
    obtain ⟨e, he, he429⟩ := h429 0 (Nat.succ_pos N)
    rw [Nat.add_zero] at he
    obtain ⟨tr, htr, hcalls, hwaits⟩ := ih (k + 1) fuel (by omega)
      (fun i hi => by
        obtain ⟨e', he', hs⟩ := h429 (i + 1) (by omega)
        exact ⟨e', by rw [show k + 1 + i = k + (i + 1) from by omega]; exact he', hs⟩)
      (by rw [show k + 1 + N = k + (N + 1) from by omega]; exact hok)
    refine ⟨.call r :: .respOne r (.failure e) :: .wait 5000 :: tr, ?_, ?_, ?_⟩
    · simp [requestWithRetry, he, handleError, he429, htr]
    · simp [Event.callReq, hcalls, List.replicate_succ]
    · simp [Event.waitMs, hwaits, List.replicate_succ]

/-- A run whose first attempt fails with a non-429 error settles immediately
with `undefined` and exactly the single call/response pair of events. -/
theorem requestWithRetry_non429 (net : Request → Nat → CallResult Entity) (r : Request)
    (e : HttpError) (hne : e.statusCode ≠ some 429) :
    ∀ fuel k, 1 ≤ fuel → net r k = .failure e →
      requestWithRetry net r fuel k = some (none, [.call r, .respOne r (.failure e)]) := by
  intro fuel k hfuel hnet
  obtain ⟨fuel, rfl⟩ : ∃ f, fuel = f + 1 := ⟨fuel - 1, by omega⟩
  simp [requestWithRetry, hnet, handleError, hne]

/-- C1: for an operation that fails with status 429 on each of its first `N`
invocations and succeeds on invocation `N + 1`, the retry wrapper
(`handleError` around `createEntity` / `getEntity` / `patchEntity`) returns
the successful result after exactly `N` waits of the fixed 5-second (5000 ms)
delay, and the underlying request is issued exactly `N + 1` times with
identical arguments (the identical replayed request) each time. -/
theorem retry_policy_429_replays (net : Request → Nat → CallResult Entity)
    (N fuel : Nat) (v : Entity) (hfuel : N < fuel) :
    (∀ entity payload,
      (∀ i, i < N → ∃ e, net (postReq entity payload) i = .failure e ∧ e.statusCode = some 429) →
      net (postReq entity payload) N = .success v →
      ∃ tr, createEntity net entity payload fuel = some (some v, tr) ∧
        tr.filterMap Event.callReq = List.replicate (N + 1) (postReq entity payload) ∧
        tr.filterMap Event.waitMs = List.replicate N 5000) ∧
    (∀ entity id,
      (∀ i, i < N → ∃ e, net (getReq entity id) i = .failure e ∧ e.statusCode = some 429) →
      net (getReq entity id) N = .success v →
      ∃ tr, getEntity net entity id fuel = some (some v, tr) ∧
        tr.filterMap Event.callReq = List.replicate (N + 1) (getReq entity id) ∧
        tr.filterMap Event.waitMs = List.replicate N 5000) ∧
    (∀ entity id payload,
      (∀ i, i < N → ∃ e, net (patchReq entity id payload) i = .failure e ∧
        e.statusCode = some 429) →
      net (patchReq entity id payload) N = .success v →
      ∃ tr, patchEntity net entity id payload fuel = some (some v, tr) ∧
        tr.filterMap Event.callReq = List.replicate (N + 1) (patchReq entity id payload) ∧
        tr.filterMap Event.waitMs = List.replicate N 5000) := by
  refine ⟨?_, ?_, ?_⟩
  · intro entity payload h429 hok
    exact requestWithRetry_429_run net (postReq entity payload) v N 0 fuel hfuel
      (by simpa using h429) (by simpa using hok)
  · intro entity id h429 hok
    exact requestWithRetry_429_run net (getReq entity id) v N 0 fuel hfuel
      (by simpa using h429) (by simpa using hok)
  · intro entity id payload h429 hok
    exact requestWithRetry_429_run net (patchReq entity id payload) v N 0 fuel hfuel
      (by simpa using h429) (by simpa using hok)

/-- Demo entity used by concrete witnesses. -/
def demoEntity : Entity :=
  { id := "con_1", name := "corp-ad", strategy := "ad", enabled_clients := ["x"],
    client_id := "cid_1", client_secret := "sec_1" }

/-- Oracle double that is rate-limited on attempt 0 and succeeds afterwards. -/
def demoNet429 : Request → Nat → CallResult Entity :=
  fun _ k => if k = 0 then .failure { statusCode := some 429, body := "too many requests" }
    else .success demoEntity

theorem retry_policy_429_replays_witness :
    ∃ tr, createEntity demoNet429 "clients" (Json.obj []) 2 = some (some demoEntity, tr) ∧
      tr.filterMap Event.callReq = List.replicate 2 (postReq "clients" (Json.obj [])) ∧
      tr.filterMap Event.waitMs = List.replicate 1 5000 :=
  (retry_policy_429_replays demoNet429 1 2 demoEntity (by decide)).1 "clients" (Json.obj [])
    (fun i hi => by
      obtain rfl : i = 0 := by omega
      exact ⟨{ statusCode := some 429, body := "too many requests" }, rfl, rfl⟩)
    rfl

/-- C2: for an operation whose invocation fails with any non-429 error, the
retry wrapper does not re-invoke the operation (the trace is exactly the one
call and its failure response, with no waits) and yields `undefined`
(modelled `none`) to the caller instead of raising. -/
theorem retry_policy_non429_swallows (net : Request → Nat → CallResult Entity)
    (e : HttpError) (fuel : Nat) (hfuel : 1 ≤ fuel) (hne : e.statusCode ≠ some 429) :
    (∀ entity payload, net (postReq entity payload) 0 = .failure e →
      createEntity net entity payload fuel =
        some (none, [.call (postReq entity payload),
          .respOne (postReq entity payload) (.failure e)])) ∧
    (∀ entity id, net (getReq entity id) 0 = .failure e →
      getEntity net entity id fuel =
        some (none, [.call (getReq entity id), .respOne (getReq entity id) (.failure e)])) ∧
    (∀ entity id payload, net (patchReq entity id payload) 0 = .failure e →
      patchEntity net entity id payload fuel =
        some (none, [.call (patchReq entity id payload),
          .respOne (patchReq entity id payload) (.failure e)])) := by
  refine ⟨?_, ?_, ?_⟩
  · intro entity payload hnet
    exact requestWithRetry_non429 net (postReq entity payload) e hne fuel 0 hfuel hnet
  · intro entity id hnet
    exact requestWithRetry_non429 net (getReq entity id) e hne fuel 0 hfuel hnet
  · intro entity id payload hnet
    exact requestWithRetry_non429 net (patchReq entity id payload) e hne fuel 0 hfuel hnet

/-- Oracle double that always fails with a 500. -/
def demoNet500 : Request → Nat → CallResult Entity :=
  fun _ _ => .failure { statusCode := some 500, body := "server error" }

theorem retry_policy_non429_swallows_witness :
    createEntity demoNet500 "clients" (Json.obj []) 1 =
      some (none, [.call (postReq "clients" (Json.obj [])),
        .respOne (postReq "clients" (Json.obj []))
          (.failure { statusCode := some 500, body := "server error" })]) :=
  (retry_policy_non429_swallows demoNet500 { statusCode := some 500, body := "server error" }
    1 (by decide) (by decide)).1 "clients" (Json.obj []) rfl

/-- Binary interleaving: `Shuffle l r out` holds when `out` is a merge of `l`
and `r` that preserves the internal order of each — one possible cooperative
scheduling of two concurrent tasks' event streams. -/
inductive Shuffle {α : Type} : List α → List α → List α → Prop where
  | nil : Shuffle [] [] []
  | left {x : α} {l r out : List α} : Shuffle l r out → Shuffle (x :: l) r (x :: out)
  | right {x : α} {l r out : List α} : Shuffle l r out → Shuffle l (x :: r) (x :: out)

/-- N-ary interleaving of the event streams of concurrently awaited tasks
(`Promise.all`), as an iterated binary shuffle. -/
def ShuffleN {α : Type} : List (List α) → List α → Prop
  | [], out => out = []
  | l :: ls, out => ∃ rest, ShuffleN ls rest ∧ Shuffle l rest out

theorem Shuffle.perm {α : Type} {l r out : List α} (h : Shuffle l r out) :
    out.Perm (l ++ r) := by
  induction h with
  | nil => simp
  | left h ih => exact ih.cons _
  | right h ih => exact (ih.cons _).trans List.perm_middle.symm

theorem shuffleN_perm {α : Type} :
    ∀ (ls : List (List α)) (out : List α), ShuffleN ls out → out.Perm ls.flatten := by
  intro ls
  induction ls with
  | nil =>
    intro out h
    obtain rfl : out = [] := h
    simp
  | cons l ls ih =>
    intro out h
    obtain ⟨rest, hrest, hsh⟩ := h
    exact hsh.perm.trans (List.Perm.append_left l (ih rest hrest))

theorem shuffle_nil_left {α : Type} (r : List α) : Shuffle [] r r := by
  induction r with
  | nil => exact .nil
  | cons x r ih => exact .right ih

theorem shuffle_append {α : Type} (l r : List α) : Shuffle l r (l ++ r) := by
  induction l with
  | nil => simpa using shuffle_nil_left r
  | cons x l ih => exact .left ih

theorem shuffleN_join {α : Type} : ∀ (ls : List (List α)), ShuffleN ls ls.flatten := by
  intro ls
  induction ls with
  | nil => rfl
  | cons l ls ih => exact ⟨ls.flatten, ih, shuffle_append l ls.flatten⟩

/-- Every event of a retried operation's trace is the replayed request being
issued, one of its responses, or the fixed 5000 ms delay. -/
theorem requestWithRetry_events (net : Request → Nat → CallResult Entity) (r : Request) :
    ∀ fuel k res tr, requestWithRetry net r fuel k = some (res, tr) →
      ∀ ev ∈ tr, ev = .call r ∨ (∃ cr, ev = .respOne r cr) ∨ ev = .wait 5000 := by
  intro fuel
  induction fuel with
  | zero => intro k res tr h; simp [requestWithRetry] at h
  | succ fuel ih =>
    intro k res tr h
    rw [requestWithRetry] at h
    cases hnet : net r k with
    | success v =>
      rw [hnet] at h
      dsimp only at h
      simp only [Option.some.injEq, Prod.mk.injEq] at h
      obtain ⟨-, rfl⟩ := h
      intro ev hev
      simp only [List.mem_cons, List.not_mem_nil, or_false] at hev
      rcases hev with rfl | rfl
      · exact Or.inl rfl
      · exact Or.inr (Or.inl ⟨_, rfl⟩)
    | failure err =>
      rw [hnet] at h
      dsimp only at h
      rcases hhe : handleError err (requestWithRetry net r fuel (k + 1)) with _ | ⟨res', tr'⟩
      · rw [hhe] at h; simp at h
      · rw [hhe] at h
        simp only [Option.some.injEq, Prod.mk.injEq] at h
        obtain ⟨-, rfl⟩ := h
        unfold handleError at hhe
        by_cases h429 : err.statusCode = some 429
        · rw [if_pos h429] at hhe
          rcases hrec : requestWithRetry net r fuel (k + 1) with _ | ⟨res2, tr2⟩
          · rw [hrec] at hhe; simp at hhe
          · rw [hrec] at hhe
            simp only [Option.map_some', Option.some.injEq, Prod.mk.injEq] at hhe
            obtain ⟨-, rfl⟩ := hhe
            intro ev hev
            simp only [List.mem_cons] at hev
            rcases hev with rfl | rfl | rfl | hev
            · exact Or.inl rfl
            · exact Or.inr (Or.inl ⟨_, rfl⟩)
            · exact Or.inr (Or.inr rfl)
            · exact ih (k + 1) res2 tr2 hrec ev hev
        · rw [if_neg h429] at hhe
          simp only [Option.some.injEq, Prod.mk.injEq] at hhe
          obtain ⟨-, rfl⟩ := hhe
          intro ev hev
          simp only [List.mem_cons, List.not_mem_nil, or_false] at hev
          rcases hev with rfl | rfl
          · exact Or.inl rfl
          · exact Or.inr (Or.inl ⟨_, rfl⟩)

/-- A settled retried operation's trace begins with the issuing of its
request. -/
theorem requestWithRetry_head (net : Request → Nat → CallResult Entity) (r : Request)
    (fuel k : Nat) (res : Option Entity) (tr : List Event)
    (h : requestWithRetry net r fuel k = some (res, tr)) :
    ∃ tl, tr = .call r :: tl := by
  cases fuel with
  | zero => simp [requestWithRetry] at h
  | succ fuel =>
    rw [requestWithRetry] at h
    cases hnet : net r k with
    | success v =>
      rw [hnet] at h
      dsimp only at h
      simp only [Option.some.injEq, Prod.mk.injEq] at h
      exact ⟨_, h.2.symm⟩
    | failure err =>
      rw [hnet] at h
      dsimp only at h
      rcases hhe : handleError err (requestWithRetry net r fuel (k + 1)) with _ | ⟨res', tr'⟩
      · rw [hhe] at h; simp at h
      · rw [hhe] at h
        simp only [Option.some.injEq, Prod.mk.injEq] at h
        exact ⟨_, h.2.symm⟩

/-- A retried operation that settles successfully has received its successful
response: the trace contains that response event. -/
theorem requestWithRetry_success_resp (net : Request → Nat → CallResult Entity) (r : Request)
    (v : Entity) :
    ∀ fuel k tr, requestWithRetry net r fuel k = some (some v, tr) →
      Event.respOne r (.success v) ∈ tr := by
  intro fuel
  induction fuel with
  | zero => intro k tr h; simp [requestWithRetry] at h
  | succ fuel ih =>
    intro k tr h
    rw [requestWithRetry] at h
    cases hnet : net r k with
    | success v' =>
      rw [hnet] at h
      dsimp only at h
      simp only [Option.some.injEq, Prod.mk.injEq] at h
      obtain ⟨hv, rfl⟩ := h
      obtain rfl : v' = v := by simpa using hv
      simp
    | failure err =>
      rw [hnet] at h
      dsimp only at h
      rcases hhe : handleError err (requestWithRetry net r fuel (k + 1)) with _ | ⟨res', tr'⟩
      · rw [hhe] at h; simp at h
      · rw [hhe] at h
        simp only [Option.some.injEq, Prod.mk.injEq] at h
        obtain ⟨hres, rfl⟩ := h
        unfold handleError at hhe
        by_cases h429 : err.statusCode = some 429
        · rw [if_pos h429] at hhe
          rcases hrec : requestWithRetry net r fuel (k + 1) with _ | ⟨res2, tr2⟩
          · rw [hrec] at hhe; simp at hhe
          · rw [hrec] at hhe
            simp only [Option.map_some', Option.some.injEq, Prod.mk.injEq] at hhe
            obtain ⟨rfl, rfl⟩ := hhe
            obtain rfl : res2 = some v := hres
            have := ih (k + 1) tr2 hrec
            simp [this]
        · rw [if_neg h429] at hhe
          simp only [Option.some.injEq, Prod.mk.injEq] at hhe
          obtain ⟨hnone, rfl⟩ := hhe
          rw [hres] at hnone
          simp at hnone

/-- Every request issued during a retried operation's run is the identical
replayed request. -/
theorem requestWithRetry_call_eq (net : Request → Nat → CallResult Entity) (r : Request)
    (fuel k : Nat) (res : Option Entity) (tr : List Event)
    (h : requestWithRetry net r fuel k = some (res, tr)) :
    ∀ r', Event.call r' ∈ tr → r' = r := by
  intro r' hmem
  rcases requestWithRetry_events net r fuel k res tr h _ hmem with h1 | ⟨cr, h1⟩ | h1
  · injection h1
  · exact absurd h1 (by simp)
  · exact absurd h1 (by simp)

/-- Payload of `createPortalClient` (the interactive portal client); the login
page markup is an external template asset passed in verbatim. -/
def portalPayload (cfg : Config) (pageHtml : String) : Json :=
  .obj [
    ("name", .str "Self Service Portal"),
    ("callbacks", .arr [.str (cfg.portal_url ++ "/callback")]),
    ("jwt_configuration", .obj [("alg", .str "RS256")]),
    ("custom_login_page", .str pageHtml),
    ("custom_login_page_on", .bool true),
    ("app_type", .str "spa"),
    ("grant_types", .arr [.str "authorization_code", .str "implicit"])]

/-- Payload of `createBackendClient` (the machine-to-machine client). -/
def backendClientPayload : Json :=
  .obj [
    ("name", .str "Self Service Backend"),
    ("app_type", .str "non_interactive"),
    ("grant_types", .arr [
      .str "client_credentials",
      .str "http://auth0.com/oauth/grant-type/password-realm",
      .str "http://auth0.com/oauth/legacy/grant-type/ro",
      .str "password"])]

/-- Payload of `createBackendAPI` (the protected resource server). -/
def backendAPIPayload : Json :=
  .obj [
    ("name", .str "Self Service API"),
    ("identifier", .str "urn:self-service-portal-api"),
    ("scopes", .arr [
      .obj [("value", .str "change:password"), ("description", .str "Change Password")],
      .obj [("value", .str "reset:password"), ("description", .str "Reset Password")],
      .obj [("value", .str "update:enrolment"), ("description", .str "Update Enrolment")],
      .obj [("value", .str "create:enrolment"), ("description", .str "Create Enrolment")],
      .obj [("value", .str "read:enrolment"), ("description", .str "Read Enrolment")],
      .obj [("value", .str "delete:enrolment"), ("description", .str "delete:enrolment")]])]

/-- Payload of `createRule`; the rule script text is an external template
asset passed in verbatim. -/
def rulePayload (ruleCode : String) : Json :=
  .obj [
    ("name", .str "Self Service Issue Scopes"),
    ("script", .str ruleCode),
    ("enabled", .bool true)]

/-- Payload of `createMgmtApiGrant`: the grant for the backend client against
the tenant's own management API. -/
def clientGrantPayload (cfg : Config) (backendClient : Entity) : Json :=
  .obj [
    ("client_id", .str backendClient.client_id),
    ("audience", .str ("https://" ++ cfg.domain ++ "/api/v2/")),
    ("scope", .arr [.str "read:users", .str "update:users", .str "delete:users"])]

/-- Embedding of `createPortalClient()` from the script. -/
def createPortalClient (cfg : Config) (pageHtml : String)
    (net : Request → Nat → CallResult Entity) (fuel : Nat) :
    Option (Option Entity × List Event) :=
  createEntity net "clients" (portalPayload cfg pageHtml) fuel

/-- Embedding of `createBackendClient()` from the script. -/
def createBackendClient (net : Request → Nat → CallResult Entity) (fuel : Nat) :
    Option (Option Entity × List Event) :=
  createEntity net "clients" backendClientPayload fuel

/-- Embedding of `createBackendAPI()` from the script. -/
def createBackendAPI (net : Request → Nat → CallResult Entity) (fuel : Nat) :
    Option (Option Entity × List Event) :=
  createEntity net "resource-servers" backendAPIPayload fuel

/-- Embedding of `createRule()` from the script. -/
def createRule (ruleCode : String) (net : Request → Nat → CallResult Entity) (fuel : Nat) :
    Option (Option Entity × List Event) :=
  createEntity net "rules" (rulePayload ruleCode) fuel

/-- Embedding of `createMgmtApiGrant(backendClient)` from the script. -/
def createMgmtApiGrant (cfg : Config) (backendClient : Entity)
    (net : Request → Nat → CallResult Entity) (fuel : Nat) :
    Option (Option Entity × List Event) :=
  createEntity net "client-grants" (clientGrantPayload cfg backendClient) fuel

/-- A JavaScript runtime error (property access on `undefined`). -/
inductive JsError where
  | typeError (msg : String)
  deriving DecidableEq

/-- The artefact bundle returned by `createArtefacts`; each slot is `none`
when that creation failed and was swallowed by the retry wrapper. -/
structure Artefacts where
  portal : Option Entity
  backend : Option Entity
  api : Option Entity
  rule : Option Entity
  mgmt_grant : Option Entity
  deriving DecidableEq

/-- A terminating run of `createArtefacts()`: the four independent creations
are started concurrently and awaited together (`Promise.all`), so the first
part of the trace is some interleaving `s` of their four event streams; only
then is the management-API grant created using the backend client's
`client_id`, appending its events after `s`.  If the backend slot settled as
`undefined`, `createMgmtApiGrant` dereferences it and the run raises. -/
def CreateArtefactsRun (cfg : Config) (pageHtml ruleCode : String)
    (net : Request → Nat → CallResult Entity) (fuel : Nat)
    (outcome : Except JsError Artefacts) (trace : List Event) : Prop :=
  ∃ portalRes tp backendRes tb apiRes ta ruleRes tr s,
    createPortalClient cfg pageHtml net fuel = some (portalRes, tp) ∧
    createBackendClient net fuel = some (backendRes, tb) ∧
    createBackendAPI net fuel = some (apiRes, ta) ∧
    createRule ruleCode net fuel = some (ruleRes, tr) ∧
    ShuffleN [tp, tb, ta, tr] s ∧
    match backendRes with
    | none =>
        outcome = .error (.typeError "Cannot read property client_id of undefined") ∧
        trace = s
    | some B =>
        ∃ grantRes tg, createMgmtApiGrant cfg B net fuel = some (grantRes, tg) ∧
          outcome = .ok (Artefacts.mk portalRes (some B) apiRes ruleRes grantRes) ∧
          trace = s ++ tg

/-- C3: in every terminating run of `createArtefacts`, the management-API
grant's create payload carries `client_id` equal to the backend client's
`client_id` from the same run, and every issue of the grant-create call in
the run's trace is strictly preceded by the backend-client create call's
successful response (the grant call is also actually issued). -/
theorem mgmt_grant_after_backend (cfg : Config) (pageHtml ruleCode : String)
    (net : Request → Nat → CallResult Entity) (fuel : Nat)
    (arts : Artefacts) (trace : List Event) (B : Entity)
    (hrun : CreateArtefactsRun cfg pageHtml ruleCode net fuel (.ok arts) trace)
    (hB : arts.backend = some B) :
    Json.getField (clientGrantPayload cfg B) "client_id" = some (.str B.client_id) ∧
    (∃ j, trace.get? j = some (.call (postReq "client-grants" (clientGrantPayload cfg B)))) ∧
    (∀ j, trace.get? j = some (.call (postReq "client-grants" (clientGrantPayload cfg B))) →
      ∃ i, i < j ∧
        trace.get? i =
          some (.respOne (postReq "clients" backendClientPayload) (.success B))) := by
  obtain ⟨portalRes, tp, backendRes, tb, apiRes, ta, ruleRes, tr, s,
    hp, hb, ha, hr, hsh, hm⟩ := hrun
  cases backendRes with
  | none => exact absurd hm.1 (by simp)
  | some B' =>
    obtain ⟨grantRes, tg, hg, hout, htrace⟩ := hm
    have hBB : B = B' := by
      injection hout with hout
      rw [hout] at hB
      simpa using hB.symm
    subst hBB
    subst htrace
    have hg' : requestWithRetry net (postReq "client-grants" (clientGrantPayload cfg B))
        fuel 0 = some (grantRes, tg) := hg
    have hp' : requestWithRetry net (postReq "clients" (portalPayload cfg pageHtml))
        fuel 0 = some (portalRes, tp) := hp
    have hb' : requestWithRetry net (postReq "clients" backendClientPayload)
        fuel 0 = some (some B, tb) := hb
    have ha' : requestWithRetry net (postReq "resource-servers" backendAPIPayload)
        fuel 0 = some (apiRes, ta) := ha
    have hr' : requestWithRetry net (postReq "rules" (rulePayload ruleCode))
        fuel 0 = some (ruleRes, tr) := hr
    obtain ⟨tl, htg⟩ := requestWithRetry_head net
      (postReq "client-grants" (clientGrantPayload cfg B)) fuel 0 grantRes tg hg'
    have hnotin : Event.call (postReq "client-grants" (clientGrantPayload cfg B)) ∉ s := by
      intro hmem
      have hmem2 : Event.call (postReq "client-grants" (clientGrantPayload cfg B)) ∈
          [tp, tb, ta, tr].flatten := (shuffleN_perm _ _ hsh).subset hmem
      simp only [List.flatten_cons, List.flatten_nil, List.append_nil,
        List.mem_append] at hmem2
      rcases hmem2 with h1 | h1 | h1 | h1
      · have := requestWithRetry_call_eq net _ fuel 0 _ _ hp' _ h1
        simp [postReq, Request.mk.injEq] at this
      · have := requestWithRetry_call_eq net _ fuel 0 _ _ hb' _ h1
        simp [postReq, Request.mk.injEq] at this
      · have := requestWithRetry_call_eq net _ fuel 0 _ _ ha' _ h1
        simp [postReq, Request.mk.injEq] at this
      · have := requestWithRetry_call_eq net _ fuel 0 _ _ hr' _ h1
        simp [postReq, Request.mk.injEq] at this
    refine ⟨rfl, ⟨s.length, ?_⟩, ?_⟩
    · rw [List.get?_append_right (Nat.le_refl _)]
      simp [htg]
    · intro j hj
      have hjlen : s.length ≤ j := by
        by_contra hlt
        push_neg at hlt
        rw [List.get?_append hlt] at hj
        exact hnotin (List.get?_mem hj)
      have hresp := requestWithRetry_success_resp net
        (postReq "clients" backendClientPayload) B fuel 0 tb hb'
      have hrespS : Event.respOne (postReq "clients" backendClientPayload)
          (.success B) ∈ s := by
        refine (shuffleN_perm _ _ hsh).symm.subset ?_
        simp only [List.flatten_cons, List.flatten_nil, List.append_nil, List.mem_append]
        tauto
      obtain ⟨i, hi⟩ := List.get?_of_mem hrespS
      have hilen : i < s.length := by
        by_contra hge
        push_neg at hge
        rw [List.get?_eq_none.mpr hge] at hi
        simp at hi
      refine ⟨i, lt_of_lt_of_le hilen hjlen, ?_⟩
      rw [List.get?_append hilen]
      exact hi

/-- Configuration double used by concrete witnesses. -/
def demoCfg : Config :=
  { domain := "t.example.com", token := "tok", portal_url := "https://portal.example.com" }

/-- Oracle double on which every request succeeds at the first attempt. -/
def demoNetOk : Request → Nat → CallResult Entity := fun _ _ => .success demoEntity

/-- The two-event trace of an operation that succeeds at the first attempt. -/
def demoTraceOf (r : Request) : List Event :=
  [.call r, .respOne r (.success demoEntity)]

def demoPortalTrace : List Event := demoTraceOf (postReq "clients" (portalPayload demoCfg "page"))

def demoBackendTrace : List Event := demoTraceOf (postReq "clients" backendClientPayload)

def demoApiTrace : List Event := demoTraceOf (postReq "resource-servers" backendAPIPayload)

def demoRuleTrace : List Event := demoTraceOf (postReq "rules" (rulePayload "rule"))

def demoGrantTrace : List Event :=
  demoTraceOf (postReq "client-grants" (clientGrantPayload demoCfg demoEntity))

def demoStage1 : List Event :=
  [demoPortalTrace, demoBackendTrace, demoApiTrace, demoRuleTrace].flatten

def demoArtsTrace : List Event := demoStage1 ++ demoGrantTrace

def demoArts : Artefacts :=
  Artefacts.mk (some demoEntity) (some demoEntity) (some demoEntity) (some demoEntity)
    (some demoEntity)

theorem mgmt_grant_after_backend_witness :
    Json.getField (clientGrantPayload demoCfg demoEntity) "client_id" =
      some (.str demoEntity.client_id) ∧
    (∃ j, demoArtsTrace.get? j =
      some (.call (postReq "client-grants" (clientGrantPayload demoCfg demoEntity)))) ∧
    (∀ j, demoArtsTrace.get? j =
        some (.call (postReq "client-grants" (clientGrantPayload demoCfg demoEntity))) →
      ∃ i, i < j ∧ demoArtsTrace.get? i =
        some (.respOne (postReq "clients" backendClientPayload) (.success demoEntity))) :=
  mgmt_grant_after_backend demoCfg "page" "rule" demoNetOk 1 demoArts demoArtsTrace demoEntity
    ⟨some demoEntity, demoPortalTrace, some demoEntity, demoBackendTrace,
      some demoEntity, demoApiTrace, some demoEntity, demoRuleTrace, demoStage1,
      rfl, rfl, rfl, rfl, shuffleN_join _,
      some demoEntity, demoGrantTrace, rfl, rfl, rfl⟩
    rfl

/-- C9: the management-grant create call is issued only after all four
stage-1 creations (portal client, backend client, backend API, rule) have
settled, not merely after the backend-client creation: the awaited stage-1
prefix `s` is a permutation of the four creations' full event streams
(including any retries and waits), the grant-create call first appears at
position `s.length` — after every stage-1 event — and never appears
earlier. -/
theorem grant_after_all_stage1 (cfg : Config) (pageHtml ruleCode : String)
    (net : Request → Nat → CallResult Entity) (fuel : Nat)
    (portalRes apiRes ruleRes grantRes : Option Entity) (B : Entity)
    (tp tb ta tr tg s : List Event)
    (hp : createPortalClient cfg pageHtml net fuel = some (portalRes, tp))
    (hb : createBackendClient net fuel = some (some B, tb))
    (ha : createBackendAPI net fuel = some (apiRes, ta))
    (hr : createRule ruleCode net fuel = some (ruleRes, tr))
    (hsh : ShuffleN [tp, tb, ta, tr] s)
    (hg : createMgmtApiGrant cfg B net fuel = some (grantRes, tg)) :
    s.Perm (tp ++ tb ++ ta ++ tr) ∧
    (s ++ tg).get? s.length =
      some (.call (postReq "client-grants" (clientGrantPayload cfg B))) ∧
    ∀ j, (s ++ tg).get? j =
        some (.call (postReq "client-grants" (clientGrantPayload cfg B))) →
      s.length ≤ j := by
  have hperm : s.Perm (tp ++ tb ++ ta ++ tr) := by
    have h := shuffleN_perm _ _ hsh
    simpa [List.append_assoc] using h
  have hg' : requestWithRetry net (postReq "client-grants" (clientGrantPayload cfg B))
      fuel 0 = some (grantRes, tg) := hg
  have hp' : requestWithRetry net (postReq "clients" (portalPayload cfg pageHtml))
      fuel 0 = some (portalRes, tp) := hp
  have hb' : requestWithRetry net (postReq "clients" backendClientPayload)
      fuel 0 = some (some B, tb) := hb
  have ha' : requestWithRetry net (postReq "resource-servers" backendAPIPayload)
      fuel 0 = some (apiRes, ta) := ha
  have hr' : requestWithRetry net (postReq "rules" (rulePayload ruleCode))
      fuel 0 = some (ruleRes, tr) := hr
  obtain ⟨tl, htg⟩ := requestWithRetry_head net
    (postReq "client-grants" (clientGrantPayload cfg B)) fuel 0 grantRes tg hg'
  have hnotin : Event.call (postReq "client-grants" (clientGrantPayload cfg B)) ∉ s := by
    intro hmem
    have hmem2 := hperm.subset hmem
    simp only [List.mem_append] at hmem2
    rcases hmem2 with ((h1 | h1) | h1) | h1
    · have := requestWithRetry_call_eq net _ fuel 0 _ _ hp' _ h1
      simp [postReq, Request.mk.injEq] at this
    · have := requestWithRetry_call_eq net _ fuel 0 _ _ hb' _ h1
      simp [postReq, Request.mk.injEq] at this
    · have := requestWithRetry_call_eq net _ fuel 0 _ _ ha' _ h1
      simp [postReq, Request.mk.injEq] at this
    · have := requestWithRetry_call_eq net _ fuel 0 _ _ hr' _ h1
      simp [postReq, Request.mk.injEq] at this
  refine ⟨hperm, ?_, ?_⟩
  · rw [List.get?_append_right (Nat.le_refl _)]
    simp [htg]
  · intro j hj
    by_contra hlt
    push_neg at hlt
    rw [List.get?_append hlt] at hj
    exact hnotin (List.get?_mem hj)

theorem grant_after_all_stage1_witness :
    demoStage1.Perm (demoPortalTrace ++ demoBackendTrace ++ demoApiTrace ++ demoRuleTrace) ∧
    (demoStage1 ++ demoGrantTrace).get? demoStage1.length =
      some (.call (postReq "client-grants" (clientGrantPayload demoCfg demoEntity))) ∧
    ∀ j, (demoStage1 ++ demoGrantTrace).get? j =
        some (.call (postReq "client-grants" (clientGrantPayload demoCfg demoEntity))) →
      demoStage1.length ≤ j :=
  grant_after_all_stage1 demoCfg "page" "rule" demoNetOk 1 (some demoEntity) (some demoEntity)
    (some demoEntity) (some demoEntity) demoEntity demoPortalTrace demoBackendTrace
    demoApiTrace demoRuleTrace demoGrantTrace demoStage1 rfl rfl rfl rfl
    (shuffleN_join _) rfl

/-- The patch body built by `enableConnections` for one fetched connection:
`enabled_clients` is the prior list with the portal then backend client ids
appended via lodash concat (order preserved, no de-duplication), `metadata`
is the AD username-field mapping exactly when the strategy is "ad", else the
empty object. -/
def connectionPatch (portalId backendId : String) (c : Entity) : Json :=
  .obj [
    ("enabled_clients", .arr ((c.enabled_clients ++ [portalId, backendId]).map Json.str)),
    ("metadata",
      if c.strategy = "ad" then .obj [("username_field_name", .str "sAMAccountName")]
      else .obj [])]

/-- The patch-derivation step of `enableConnections` (`cons.map(c => ...)`) :
JavaScript evaluates the callback on each fetched connection in order, so an
`undefined` element (a fetch failure swallowed into `undefined` by the retry
wrapper) raises a `TypeError` at the first such element — as does an
`undefined` portal or backend artefact — before any patch is built past it. -/
def derivePatches (arts : Artefacts) : List (Option Entity) → Except JsError (List (String × Json))
  | [] => .ok []
  | oc :: rest =>
    match oc with
    | none => .error (.typeError "Cannot read property id of undefined")
    | some c =>
      match arts.portal, arts.backend with
      | some P, some B =>
        match derivePatches arts rest with
        | .error e => .error e
        | .ok ps => .ok ((c.id, connectionPatch P.client_id B.client_id c) :: ps)
      | _, _ => .error (.typeError "Cannot read property client_id of undefined")

/-- The two named fields of a derived connection patch. -/
theorem connectionPatch_getFields (portalId backendId : String) (c : Entity) :
    Json.getField (connectionPatch portalId backendId c) "enabled_clients" =
      some (.arr ((c.enabled_clients ++ [portalId, backendId]).map Json.str)) ∧
    Json.getField (connectionPatch portalId backendId c) "metadata" =
      some (if c.strategy = "ad" then .obj [("username_field_name", .str "sAMAccountName")]
        else .obj []) := by
  exact ⟨rfl, rfl⟩

/-- C4: for every fetched connection, the patch derived by `enableConnections`
has `enabled_clients` equal to the connection's prior `enabled_clients` with
the portal client id then the backend client id appended (prior entries
preserved, no de-duplication), and `metadata` equal to the
`username_field_name = sAMAccountName` object if and only if the connection's
strategy equals "ad", else the empty object. -/
theorem connection_patch_derivation (arts : Artefacts) (P B : Entity)
    (hP : arts.portal = some P) (hB : arts.backend = some B) (cons : List Entity) :
    derivePatches arts (cons.map some) =
      .ok (cons.map fun c => (c.id, connectionPatch P.client_id B.client_id c)) ∧
    ∀ c : Entity,
      Json.getField (connectionPatch P.client_id B.client_id c) "enabled_clients" =
        some (.arr ((c.enabled_clients ++ [P.client_id, B.client_id]).map Json.str)) ∧
      (Json.getField (connectionPatch P.client_id B.client_id c) "metadata" =
          some (.obj [("username_field_name", .str "sAMAccountName")]) ↔
        c.strategy = "ad") ∧
      (c.strategy ≠ "ad" →
        Json.getField (connectionPatch P.client_id B.client_id c) "metadata" =
          some (.obj [])) := by
  constructor
  · induction cons with
    | nil => simp [derivePatches]
    | cons c cs ih => simp [derivePatches, hP, hB, ih]
  · intro c
    refine ⟨(connectionPatch_getFields P.client_id B.client_id c).1, ?_, ?_⟩
    · rw [(connectionPatch_getFields P.client_id B.client_id c).2]
      by_cases hs : c.strategy = "ad"
      · simp [hs]
      · simp [hs]
    · intro hs
      rw [(connectionPatch_getFields P.client_id B.client_id c).2, if_neg hs]

theorem connection_patch_derivation_witness :
    derivePatches demoArts ([demoEntity].map some) =
      .ok ([demoEntity].map fun c =>
        (c.id, connectionPatch demoEntity.client_id demoEntity.client_id c)) ∧
    ∀ c : Entity,
      Json.getField (connectionPatch demoEntity.client_id demoEntity.client_id c)
          "enabled_clients" =
        some (.arr ((c.enabled_clients ++
          [demoEntity.client_id, demoEntity.client_id]).map Json.str)) ∧
      (Json.getField (connectionPatch demoEntity.client_id demoEntity.client_id c)
          "metadata" =
          some (.obj [("username_field_name", .str "sAMAccountName")]) ↔
        c.strategy = "ad") ∧
      (c.strategy ≠ "ad" →
        Json.getField (connectionPatch demoEntity.client_id demoEntity.client_id c)
            "metadata" = some (.obj [])) :=
  connection_patch_derivation demoArts demoEntity demoEntity rfl rfl [demoEntity]

/-- The front-end env block (client.env) written by `generateEnv`. -/
def clientEnv (cfg : Config) (portal : Entity) : String :=
  "REACT_APP_domain=" ++ cfg.domain ++ "\n" ++
  "REACT_APP_clientID=" ++ portal.client_id ++ "\n" ++
  "REACT_APP_audience=urn:self-service-portal-api\n"

/-- The back-end env block (server.env) written by `generateEnv`. -/
def serverEnv (cfg : Config) (backend : Entity) : String :=
  "NON_INTERACTIVE_CLIENT_ID=" ++ backend.client_id ++ "\n" ++
  "NON_INTERACTIVE_CLIENT_SECRET=" ++ backend.client_secret ++ "\n" ++
  "DOMAIN=" ++ cfg.domain ++ "\n" ++
  "AUDIENCE=urn:self-service-portal-api\n"

/-- Embedding of `generateEnv(artefacts)`: renders the two env blocks from the portal and
backend artefacts (a swallowed `undefined` artefact makes the template
literal's field access raise) and writes them out; the model returns the two
written file contents. -/
def generateEnv (cfg : Config) (arts : Artefacts) : Except JsError (String × String) :=
  match arts.portal, arts.backend with
  | some portal, some backend => .ok (clientEnv cfg portal, serverEnv cfg backend)
  | _, _ => .error (.typeError "Cannot read property client_id of undefined")

/-- C6: for every artefact bundle with portal client id "P1", backend client
id "B1", backend client secret "S1" and domain "t.example.com", `generateEnv`
produces a front-end block that is exactly the lines `REACT_APP_domain`,
`REACT_APP_clientID`, `REACT_APP_audience` with those values, and a back-end
block that is exactly `NON_INTERACTIVE_CLIENT_ID`,
`NON_INTERACTIVE_CLIENT_SECRET`, `DOMAIN`, `AUDIENCE` with those values. -/
theorem generate_env_blocks (cfg : Config) (arts : Artefacts) (P B : Entity)
    (hP : arts.portal = some P) (hB : arts.backend = some B)
    (hdom : cfg.domain = "t.example.com") (hpid : P.client_id = "P1")
    (hbid : B.client_id = "B1") (hbsec : B.client_secret = "S1") :
    generateEnv cfg arts = .ok
      ("REACT_APP_domain=t.example.com\nREACT_APP_clientID=P1\nREACT_APP_audience=urn:self-service-portal-api\n",
       "NON_INTERACTIVE_CLIENT_ID=B1\nNON_INTERACTIVE_CLIENT_SECRET=S1\nDOMAIN=t.example.com\nAUDIENCE=urn:self-service-portal-api\n") := by
  simp only [generateEnv, hP, hB, clientEnv, serverEnv, hdom, hpid, hbid, hbsec]
  rfl

/-- Portal-entity double carrying the C6 example values. -/
def demoPortalE : Entity :=
  { id := "p", name := "portal", strategy := "", enabled_clients := [],
    client_id := "P1", client_secret := "" }

/-- Backend-entity double carrying the C6 example values. -/
def demoBackendE : Entity :=
  { id := "b", name := "backend", strategy := "", enabled_clients := [],
    client_id := "B1", client_secret := "S1" }

/-- Artefact bundle double for the C6 example. -/
def demoEnvArts : Artefacts :=
  Artefacts.mk (some demoPortalE) (some demoBackendE) none none none

theorem generate_env_blocks_witness :
    generateEnv demoCfg demoEnvArts = .ok
      ("REACT_APP_domain=t.example.com\nREACT_APP_clientID=P1\nREACT_APP_audience=urn:self-service-portal-api\n",
       "NON_INTERACTIVE_CLIENT_ID=B1\nNON_INTERACTIVE_CLIENT_SECRET=S1\nDOMAIN=t.example.com\nAUDIENCE=urn:self-service-portal-api\n") :=
  generate_env_blocks demoCfg demoEnvArts demoPortalE demoBackendE rfl rfl rfl rfl rfl rfl

/-- The selectable choice built by `findConnections` for the operator prompt:
`{name: c.name, value: c.id}` — the `name` field is the connection's display
name (the spec's ConnectionChoice `label`), the `value` field its remote
identifier (the spec's ConnectionChoice `id`). -/
structure ConnectionChoice where
  name : String
  value : String
  deriving DecidableEq

/-- The discovery request `GET {base}/connections?strategy={s}&fields=name`. -/
def connectionsReq (strategy : String) : Request :=
  { method := .get, entity := "connections?strategy=" ++ strategy ++ "&fields=name",
    id := none, payload := none }

/-- Embedding of `findConnections(strategy)` from the script: a single request with no
`try`/`catch` and no retry wrapper; on success the parsed connection list is
projected to choices, on failure the error propagates to the caller. -/
def findConnections (dnet : String → CallResult (List Entity)) (strategy : String) :
    Except HttpError (List ConnectionChoice) × List Event :=
  match dnet strategy with
  | .success cs =>
      (.ok (cs.map fun c => ConnectionChoice.mk c.name c.id),
        [.call (connectionsReq strategy),
          .respMany (connectionsReq strategy) (.success cs)])
  | .failure e =>
      (.error e,
        [.call (connectionsReq strategy),
          .respMany (connectionsReq strategy) (.failure e)])

/-- C7: for every strategy and every remote response listing connections,
`findConnections` returns one choice per returned connection, in the same
order, mapping each connection to the pair of its display name (`name`) and
its remote identifier (`id`). -/
theorem find_connections_projection (dnet : String → CallResult (List Entity))
    (strategy : String) (cs : List Entity) (h : dnet strategy = .success cs) :
    (findConnections dnet strategy).1 =
      .ok (cs.map fun c => ConnectionChoice.mk c.name c.id) ∧
    (cs.map fun c => ConnectionChoice.mk c.name c.id).length = cs.length ∧
    ∀ i, (cs.map fun c => ConnectionChoice.mk c.name c.id).get? i =
      (cs.get? i).map fun c => ConnectionChoice.mk c.name c.id := by
  refine ⟨by simp [findConnections, h], by simp, fun i => ?_⟩
  exact List.get?_map _ _ _

theorem find_connections_projection_witness :
    (findConnections (fun _ => .success [demoEntity]) "ad").1 =
      .ok ([demoEntity].map fun c => ConnectionChoice.mk c.name c.id) ∧
    ([demoEntity].map fun c => ConnectionChoice.mk c.name c.id).length =
      [demoEntity].length ∧
    ∀ i, ([demoEntity].map fun c => ConnectionChoice.mk c.name c.id).get? i =
      ([demoEntity].get? i).map fun c => ConnectionChoice.mk c.name c.id :=
  find_connections_projection (fun _ => .success [demoEntity]) "ad" [demoEntity] rfl

/-- C8: a failing `findConnections` call (including a 429 rate-limit
response) issues its request exactly once — no retry, no wait — and the
error propagates to the caller in the result instead of being swallowed into
an empty value: connection discovery is not wrapped in the retry policy. -/
theorem find_connections_propagates_errors (dnet : String → CallResult (List Entity))
    (strategy : String) (e : HttpError) (h : dnet strategy = .failure e) :
    findConnections dnet strategy =
      (.error e, [.call (connectionsReq strategy),
        .respMany (connectionsReq strategy) (.failure e)]) := by
  simp [findConnections, h]

theorem find_connections_propagates_errors_witness :
    findConnections (fun _ => .failure (HttpError.mk (some 429) "too many requests")) "ad" =
      (.error (HttpError.mk (some 429) "too many requests"),
        [.call (connectionsReq "ad"),
          .respMany (connectionsReq "ad")
            (.failure (HttpError.mk (some 429) "too many requests"))]) :=
  find_connections_propagates_errors
    (fun _ => .failure (HttpError.mk (some 429) "too many requests")) "ad"
    (HttpError.mk (some 429) "too many requests") rfl

/-- Message printed before `process.exit(0)` when no AD connection exists. -/
def adRequiredMsg : String :=
  "AD connection is required. Please setup an AD connection and rerun the script."

/-- Message printed before `process.exit(0)` when no SMS connection exists. -/
def smsRequiredMsg : String :=
  "SMS passwordless connection is required. Please setup passwordless SMS and rerun the script."

/-- Message printed before `process.exit(0)` when no Email connection exists. -/
def emailRequiredMsg : String :=
  "Email passwordless connection is required. Please setup passwordless Email and rerun the script."

/-- Result of `validateConnections`: the process exits (with code and printed
message), or the operator's three selected connection ids are returned. -/
inductive ValidateResult where
  | exit (code : Nat) (msg : String)
  | selections (selected_ad_connection selected_sms_connection
      selected_email_connection : String)
  deriving DecidableEq

/-- Embedding of `validateConnections(ad, sms, email)` from the script: checks the three
discovered choice lists in order and calls `process.exit(0)` with a message
as soon as one is empty; otherwise prompts the operator — modelled by `pick`,
mapping a question name and its choices to the chosen connection id. -/
def validateConnections (pick : String → List ConnectionChoice → String)
    (ad_connections sms_connections email_connections : List ConnectionChoice) :
    ValidateResult :=
  if ad_connections.length < 1 then .exit 0 adRequiredMsg
  else if sms_connections.length < 1 then .exit 0 smsRequiredMsg
  else if email_connections.length < 1 then .exit 0 emailRequiredMsg
  else .selections (pick "selected_ad_connection" ad_connections)
    (pick "selected_sms_connection" sms_connections)
    (pick "selected_email_connection" email_connections)

/-- A terminating run of `enableConnections(artefacts, selectedConnections)`:
the selected connection ids are fetched concurrently through the retried
`getEntity` (their event streams interleave into `fetchT`); once all fetches
settle the patches are derived — raising at the first `undefined` fetch
result — and on success every patch is applied concurrently through the
retried `patchEntity` (their event streams interleave after `fetchT`). -/
def EnableConnectionsRun (net : Request → Nat → CallResult Entity) (fuel : Nat)
    (arts : Artefacts) (selected : List String) (cons : List (Option Entity))
    (outcome : Except JsError (List (Option Entity))) (trace : List Event) : Prop :=
  ∃ fetchResults fetchT,
    List.Forall₂ (fun cid res => getEntity net "connections" cid fuel = some res)
      selected fetchResults ∧
    cons = fetchResults.map Prod.fst ∧
    ShuffleN (fetchResults.map Prod.snd) fetchT ∧
    match derivePatches arts cons with
    | .error e => outcome = .error e ∧ trace = fetchT
    | .ok patches =>
        ∃ patchResults patchT,
          List.Forall₂ (fun p res =>
            patchEntity net "connections" p.1 p.2 fuel = some res) patches patchResults ∧
          ShuffleN (patchResults.map Prod.snd) patchT ∧
          outcome = .ok (patchResults.map Prod.fst) ∧
          trace = fetchT ++ patchT

/-- Overall outcome of `runSetup()` after the configuration step: the
process exited early via `process.exit`, raised a runtime error, or finished
with the artefacts, patch results and the two written env blocks. -/
inductive RunOutcome where
  | exited (code : Nat) (msg : String)
  | raised (e : JsError)
  | finished (arts : Artefacts) (patchResults : List (Option Entity))
      (clientEnvFile serverEnvFile : String)

/-- A terminating run of `runSetup()` after the configuration step: the three
strategy discoveries are issued concurrently (their traces interleave into
`d`), then `validateConnections` either exits the process — ending the run
and its trace — or yields the operator's selections, after which
`createArtefacts`, `enableConnections` and `generateEnv` run in order. -/
def RunSetupRun (cfg : Config) (pageHtml ruleCode : String)
    (dnet : String → CallResult (List Entity)) (net : Request → Nat → CallResult Entity)
    (pick : String → List ConnectionChoice → String) (fuel : Nat)
    (adC smsC emC : List ConnectionChoice) (outcome : RunOutcome)
    (trace : List Event) : Prop :=
  ∃ ta ts te d,
    findConnections dnet "ad" = (.ok adC, ta) ∧
    findConnections dnet "sms" = (.ok smsC, ts) ∧
    findConnections dnet "email" = (.ok emC, te) ∧
    ShuffleN [ta, ts, te] d ∧
    match validateConnections pick adC smsC emC with
    | .exit code msg => outcome = .exited code msg ∧ trace = d
    | .selections selAd selSms selEmail =>
        ∃ artsOut artsT,
          CreateArtefactsRun cfg pageHtml ruleCode net fuel artsOut artsT ∧
          match artsOut with
          | .error e => outcome = .raised e ∧ trace = d ++ artsT
          | .ok arts =>
              ∃ cons enOut enT,
                EnableConnectionsRun net fuel arts [selAd, selSms, selEmail] cons enOut enT ∧
                match enOut with
                | .error e => outcome = .raised e ∧ trace = d ++ artsT ++ enT
                | .ok patchResults =>
                    match generateEnv cfg arts with
                    | .error e => outcome = .raised e ∧ trace = d ++ artsT ++ enT
                    | .ok envs =>
                        outcome = .finished arts patchResults envs.1 envs.2 ∧
                        trace = d ++ artsT ++ enT

/-- Every request issued during a `findConnections` run is the single
discovery request of its strategy. -/
theorem findConnections_trace (dnet : String → CallResult (List Entity)) (strategy : String)
    (res : Except HttpError (List ConnectionChoice)) (t : List Event)
    (h : findConnections dnet strategy = (res, t)) :
    ∀ r, Event.call r ∈ t → r = connectionsReq strategy := by
  unfold findConnections at h
  cases hd : dnet strategy with
  | success cs =>
    rw [hd] at h
    dsimp only at h
    injection h with h1 h2
    subst h2
    intro r hmem
    rcases List.mem_cons.mp hmem with h3 | h3
    · exact Event.call.inj h3
    · rcases List.mem_cons.mp h3 with h4 | h4
      · exact absurd h4 (by simp)
      · simp at h4
  | failure e =>
    rw [hd] at h
    dsimp only at h
    injection h with h1 h2
    subst h2
    intro r hmem
    rcases List.mem_cons.mp hmem with h3 | h3
    · exact Event.call.inj h3
    · rcases List.mem_cons.mp h3 with h4 | h4
      · exact absurd h4 (by simp)
      · simp at h4

/-- C5: whenever discovery yields zero connections for a required strategy
(ad, sms, or email), `runSetup` terminates immediately via `process.exit`
with a successful exit status 0 and the corresponding user-facing message,
and the whole run's trace contains no creation (POST) call: the termination
happens before any creation call is issued. -/
theorem missing_strategy_exits_before_creation (cfg : Config) (pageHtml ruleCode : String)
    (dnet : String → CallResult (List Entity)) (net : Request → Nat → CallResult Entity)
    (pick : String → List ConnectionChoice → String) (fuel : Nat)
    (adC smsC emC : List ConnectionChoice) (outcome : RunOutcome) (trace : List Event)
    (hrun : RunSetupRun cfg pageHtml ruleCode dnet net pick fuel adC smsC emC outcome trace)
    (hempty : adC = [] ∨ smsC = [] ∨ emC = []) :
    (outcome = .exited 0 adRequiredMsg ∨ outcome = .exited 0 smsRequiredMsg ∨
      outcome = .exited 0 emailRequiredMsg) ∧
    ∀ r, Event.call r ∈ trace → r.method ≠ .post := by
  obtain ⟨ta, ts, te, d, hAd, hSms, hEm, hsh, hm⟩ := hrun
  have hval : ∃ msg, (msg = adRequiredMsg ∨ msg = smsRequiredMsg ∨ msg = emailRequiredMsg) ∧
      validateConnections pick adC smsC emC = .exit 0 msg := by
    rcases hempty with rfl | rfl | rfl
    · exact ⟨adRequiredMsg, Or.inl rfl, by simp [validateConnections]⟩
    · by_cases hA : adC.length < 1
      · exact ⟨adRequiredMsg, Or.inl rfl, by simp [validateConnections, hA]⟩
      · exact ⟨smsRequiredMsg, Or.inr (Or.inl rfl), by simp [validateConnections, hA]⟩
    · by_cases hA : adC.length < 1
      · exact ⟨adRequiredMsg, Or.inl rfl, by simp [validateConnections, hA]⟩
      · by_cases hS : smsC.length < 1
        · exact ⟨smsRequiredMsg, Or.inr (Or.inl rfl),
            by simp [validateConnections, hA, hS]⟩
        · exact ⟨emailRequiredMsg, Or.inr (Or.inr rfl),
            by simp [validateConnections, hA, hS]⟩
  obtain ⟨msg, hmsg, hvc⟩ := hval
  rw [hvc] at hm
  obtain ⟨hout, htrace⟩ := hm
  subst htrace
  constructor
  · rcases hmsg with rfl | rfl | rfl
    · exact Or.inl hout
    · exact Or.inr (Or.inl hout)
    · exact Or.inr (Or.inr hout)
  · intro r hmem hpost
    have hd := (shuffleN_perm _ _ hsh).subset hmem
    simp only [List.flatten_cons, List.flatten_nil, List.append_nil,
      List.mem_append] at hd
    rcases hd with h1 | h1 | h1
    · have h2 := findConnections_trace dnet "ad" _ _ hAd r h1
      rw [h2] at hpost
      simp [connectionsReq] at hpost
    · have h2 := findConnections_trace dnet "sms" _ _ hSms r h1
      rw [h2] at hpost
      simp [connectionsReq] at hpost
    · have h2 := findConnections_trace dnet "email" _ _ hEm r h1
      rw [h2] at hpost
      simp [connectionsReq] at hpost

/-- Trace of a discovery call that succeeds with an empty connection list. -/
def demoDiscTrace (strategy : String) : List Event :=
  [.call (connectionsReq strategy), .respMany (connectionsReq strategy) (.success [])]

/-- The whole trace of an empty-tenant run that exits at validation. -/
def demoEmptyDisc : List Event :=
  [demoDiscTrace "ad", demoDiscTrace "sms", demoDiscTrace "email"].flatten

theorem missing_strategy_exits_before_creation_witness :
    ((RunOutcome.exited 0 adRequiredMsg) = .exited 0 adRequiredMsg ∨
      (RunOutcome.exited 0 adRequiredMsg) = .exited 0 smsRequiredMsg ∨
      (RunOutcome.exited 0 adRequiredMsg) = .exited 0 emailRequiredMsg) ∧
    ∀ r, Event.call r ∈ demoEmptyDisc → r.method ≠ .post :=
  missing_strategy_exits_before_creation demoCfg "page" "rule"
    (fun _ => .success []) demoNetOk (fun _ _ => "x") 1 [] [] []
    (.exited 0 adRequiredMsg) demoEmptyDisc
    ⟨demoDiscTrace "ad", demoDiscTrace "sms", demoDiscTrace "email", demoEmptyDisc,
      rfl, rfl, rfl, shuffleN_join _, rfl, rfl⟩
    (Or.inl rfl)

/-- Patch derivation raises a `TypeError` whenever some fetched connection is
`undefined`. -/
theorem derivePatches_error_of_none (arts : Artefacts) :
    ∀ cons : List (Option Entity), none ∈ cons →
      ∃ msg, derivePatches arts cons = .error (.typeError msg) := by
  intro cons
  induction cons with
  | nil => simp
  | cons oc rest ih =>
    intro hmem
    cases oc with
    | none => exact ⟨"Cannot read property id of undefined", rfl⟩
    | some c =>
      have hrest : none ∈ rest := by simpa using hmem
      cases hP : arts.portal with
      | none => exact ⟨"Cannot read property client_id of undefined",
          by simp [derivePatches, hP]⟩
      | some P =>
        cases hB : arts.backend with
        | none => exact ⟨"Cannot read property client_id of undefined",
            by simp [derivePatches, hP, hB]⟩
        | some B =>
          obtain ⟨msg, hmsg⟩ := ih hrest
          exact ⟨msg, by simp [derivePatches, hP, hB, hmsg]⟩

/-- Right-to-left membership along a `Forall₂` relation. -/
theorem forall2_mem_right {α β : Type} {R : α → β → Prop} :
    ∀ {as : List α} {bs : List β}, List.Forall₂ R as bs → ∀ b ∈ bs, ∃ a ∈ as, R a b := by
  intro as bs h
  induction h with
  | nil => simp
  | cons hR hrest ih =>
    intro b hb
    rcases List.mem_cons.mp hb with rfl | hb
    · exact ⟨_, List.mem_cons_self _ _, hR⟩
    · obtain ⟨a, ha, hab⟩ := ih b hb
      exact ⟨a, List.mem_cons_of_mem _ ha, hab⟩

/-- C10: in `enableConnections`, if some connection fetch settled as
`undefined` (a non-429 failure swallowed by the retry wrapper), the
patch-derivation step dereferences the `undefined` connection and raises
before any patch call is issued: the outcome is a `TypeError` and the run's
trace contains no PATCH call at all. -/
theorem fetch_undefined_aborts_patching (net : Request → Nat → CallResult Entity)
    (fuel : Nat) (arts : Artefacts) (selected : List String)
    (cons : List (Option Entity)) (outcome : Except JsError (List (Option Entity)))
    (trace : List Event)
    (hrun : EnableConnectionsRun net fuel arts selected cons outcome trace)
    (hnone : none ∈ cons) :
    (∃ msg, outcome = .error (.typeError msg)) ∧
    ∀ r, Event.call r ∈ trace → r.method ≠ .patch := by
  obtain ⟨fetchResults, fetchT, hfa, hcons, hsh, hm⟩ := hrun
  obtain ⟨msg, hdp⟩ := derivePatches_error_of_none arts cons hnone
  rw [hdp] at hm
  obtain ⟨hout, htrace⟩ := hm
  subst htrace
  refine ⟨⟨msg, hout⟩, ?_⟩
  intro r hmem hpatch
  have hflat := (shuffleN_perm _ _ hsh).subset hmem
  obtain ⟨t, ht, hevt⟩ := List.mem_flatten.mp hflat
  obtain ⟨res, hres, rfl⟩ := List.mem_map.mp ht
  obtain ⟨cid, -, hget⟩ := forall2_mem_right hfa res hres
  have hget' : requestWithRetry net (getReq "connections" cid) fuel 0 =
      some (res.1, res.2) := hget
  have h2 := requestWithRetry_call_eq net (getReq "connections" cid) fuel 0
    res.1 res.2 hget' r hevt
  rw [h2] at hpatch
  simp [getReq] at hpatch

/-- Fetch trace of a connection whose retrieval fails with a 500 and is
swallowed into `undefined`. -/
def demoFetchTrace : List Event :=
  [.call (getReq "connections" "c1"),
    .respOne (getReq "connections" "c1")
      (.failure (HttpError.mk (some 500) "server error"))]

theorem fetch_undefined_aborts_patching_witness :
    (∃ msg, (Except.error (.typeError "Cannot read property id of undefined") :
        Except JsError (List (Option Entity))) = .error (.typeError msg)) ∧
    ∀ r, Event.call r ∈ demoFetchTrace → r.method ≠ .patch :=
  fetch_undefined_aborts_patching demoNet500 1 demoArts ["c1"] [none]
    (.error (.typeError "Cannot read property id of undefined")) demoFetchTrace
    ⟨[(none, demoFetchTrace)], demoFetchTrace,
      .cons rfl .nil, rfl, shuffleN_join _, rfl, rfl⟩
    (by simp)
